import Mathlib

/-!
Verification of the car CRUD HTTP service (Express router in
src/routes/cars.js) against its natural-language specification.

The embedding models:
  - JavaScript values arriving in a request body (form-data strings or
    JSON numbers) together with JS truthiness;
  - the JS platform functions parseInt, parseFloat and the Number
    coercion used by the global isNaN, restricted to plain decimal
    literals (hexadecimal prefixes, exponents and Infinity are not
    needed by any request considered here);
  - the Record Store (Prisma client over the Car table; the Prisma
    schema is not part of src/, so the store operations are modelled
    from the specification data model: year is a required integer,
    price a required decimal number, and a NaN handed to the store is
    rejected as a store error);
  - the four parameterised route handlers, each returning a response,
    the successor store state and an ordered trace of store and
    filesystem events.  Filesystem unlink outcomes are an explicit
    environment parameter which can only add a log event, mirroring the
    fire-and-forget fs.unlink callbacks in the source.
-/

namespace CarsApi

/-- A JavaScript number: either NaN or an exact rational value. -/
inductive JsNum where
  | nan : JsNum
  | val : ℚ → JsNum
deriving DecidableEq, Repr

/-- A JavaScript value as it can appear in a parsed request body field:
absent (undefined), a form-data / JSON string, or a JSON number. -/
inductive JsValue where
  | undefined : JsValue
  | str : String → JsValue
  | num : JsNum → JsValue
deriving DecidableEq, Repr

/-- JS truthiness of a number: NaN and 0 are falsy. -/
def JsNum.truthy : JsNum → Bool
  | .nan => false
  | .val q => q ≠ 0

/-- JS truthiness of a body value: undefined is falsy, a string is
truthy when non-empty, a number is truthy when neither NaN nor 0. -/
def JsValue.truthy : JsValue → Bool
  | .undefined => false
  | .str s => s ≠ ""
  | .num n => n.truthy

/-- Whitespace trim of a character list at both ends, as the JS string
trim performed before numeric parsing. -/
def jsTrim (cs : List Char) : List Char :=
  ((cs.dropWhile Char.isWhitespace).reverse.dropWhile Char.isWhitespace).reverse

/-- Numeric value of a list of decimal digit characters. -/
def digitsToNat (ds : List Char) : Nat :=
  ds.foldl (fun a c => 10 * a + (c.toNat - 48)) 0

/-- Leading-digit integer parse after an optional sign, as used by JS
parseInt on an already whitespace-trimmed character list. -/
def parseIntCore (sign : Int) (cs : List Char) : JsNum :=
  let ds := cs.takeWhile Char.isDigit
  if ds.isEmpty then .nan else .val ((sign * (digitsToNat ds : Int) : Int) : ℚ)

/-- Model of the JS platform function parseInt (base 10, decimal
digits only): trims whitespace, accepts an optional sign, then reads the
longest leading run of digits; NaN when that run is empty. -/
def jsParseIntStr (s : String) : JsNum :=
  match jsTrim s.toList with
  | '-' :: rest => parseIntCore (-1) rest
  | '+' :: rest => parseIntCore 1 rest
  | rest => parseIntCore 1 rest

/-- Rational value of a signed decimal literal given as an integer
digit run and a fraction digit run: digits over a power of ten. -/
def decimalVal (sign : Int) (intDs fracDs : List Char) : ℚ :=
  Rat.divInt (sign * (digitsToNat (intDs ++ fracDs) : Int)) ((10 : Int) ^ fracDs.length)

/-- Leading decimal-literal parse after an optional sign, as used by JS
parseFloat: digits, optionally followed by a dot and more digits; at
least one digit must be present overall. -/
def parseFloatCore (sign : Int) (cs : List Char) : JsNum :=
  let intDs := cs.takeWhile Char.isDigit
  let rest := cs.dropWhile Char.isDigit
  match rest with
  | '.' :: rest2 =>
      let fracDs := rest2.takeWhile Char.isDigit
      if intDs.isEmpty && fracDs.isEmpty then .nan
      else .val (decimalVal sign intDs fracDs)
  | _ => if intDs.isEmpty then .nan else .val (decimalVal sign intDs [])

/-- Model of the JS platform function parseFloat on plain decimal
literals: trims whitespace, optional sign, digits with an optional
fractional part; NaN when no digit is found. -/
def jsParseFloatStr (s : String) : JsNum :=
  match jsTrim s.toList with
  | '-' :: rest => parseFloatCore (-1) rest
  | '+' :: rest => parseFloatCore 1 rest
  | rest => parseFloatCore 1 rest

/-- Complete decimal-literal parse after an optional sign, as used by
the JS Number coercion: the whole remaining string must be digits with
an optional fractional part. -/
def numberCore (sign : Int) (cs : List Char) : JsNum :=
  let intDs := cs.takeWhile Char.isDigit
  let rest := cs.dropWhile Char.isDigit
  match rest with
  | [] => if intDs.isEmpty then .nan else .val (decimalVal sign intDs [])
  | '.' :: rest2 =>
      let fracDs := rest2.takeWhile Char.isDigit
      if (intDs.isEmpty && fracDs.isEmpty) || !(rest2.dropWhile Char.isDigit).isEmpty
      then .nan
      else .val (decimalVal sign intDs fracDs)
  | _ => .nan

/-- Model of the JS Number coercion of a string, restricted to plain
decimal literals: the trimmed empty string is 0, otherwise the whole
string must be a signed decimal literal, else NaN. -/
def jsNumberStr (s : String) : JsNum :=
  match jsTrim s.toList with
  | [] => .val 0
  | '-' :: rest => numberCore (-1) rest
  | '+' :: rest => numberCore 1 rest
  | rest => numberCore 1 rest

/-- Model of the JS global isNaN applied to a string, as in the
`isNaN(id)` checks of the route handlers: Number coercion then NaN
test. -/
def jsIsNaN (s : String) : Bool :=
  jsNumberStr s == JsNum.nan

/-- Truncation toward zero of a rational, the integer part JS parseInt
extracts from the decimal rendering of a number. -/
def ratTrunc (q : ℚ) : Int :=
  if 0 ≤ q then q.floor else q.ceil

/-- Model of JS parseInt applied to a body value: undefined and NaN
give NaN, a string is parsed, a finite number is truncated toward
zero (parseInt stringifies its argument first). -/
def parseIntVal : JsValue → JsNum
  | .undefined => .nan
  | .str s => jsParseIntStr s
  | .num .nan => .nan
  | .num (.val q) => .val ((ratTrunc q : Int) : ℚ)

/-- Model of JS parseFloat applied to a body value: undefined gives
NaN, a string is parsed, a number is already a number. -/
def parseFloatVal : JsValue → JsNum
  | .undefined => .nan
  | .str s => jsParseFloatStr s
  | .num n => n

/-- JS truthiness of an optional string field: present and non-empty. -/
def truthyStr : Option String → Bool
  | none => false
  | some s => s ≠ ""

/-- JS `v || dflt` on an optional string field: the string when truthy
(present and non-empty), otherwise the default. -/
def orElseStr (v : Option String) (dflt : String) : String :=
  match v with
  | some s => if s = "" then dflt else s
  | none => dflt

/-- A persisted Car record, per the data model: store-generated integer
id, required text name/brand/model, integer year, decimal price,
description text, optional image filename. -/
structure Car where
  id : Nat
  name : String
  brand : String
  model : String
  year : Int
  price : ℚ
  description : String
  imageName : Option String
deriving DecidableEq, Repr

/-- The Record Store state: the table of Car rows and the next id the
store will assign on creation. -/
structure StoreState where
  cars : List Car
  nextId : Nat
deriving DecidableEq, Repr

/-- Store well-formedness: every stored id is below the next generated
id, so a freshly assigned id is unique. -/
def StoreState.WF (s : StoreState) : Prop :=
  ∀ c ∈ s.cars, c.id < s.nextId

instance (s : StoreState) : Decidable s.WF :=
  List.decidableBAll _ s.cars

/-- The data object handed to the store by create and update: the
numeric fields are JS numbers, possibly NaN, exactly as produced by
parseInt and parseFloat in the route handlers. -/
structure CarData where
  name : String
  brand : String
  model : String
  year : JsNum
  price : JsNum
  description : String
  imageName : Option String
deriving DecidableEq, Repr

/-- Modelled from the spec: the Car table declares year as an integer
column, so the store accepts a year only when it is a finite integer
JS number; NaN or a fractional value is a store error. -/
def JsNum.asInt : JsNum → Option Int
  | .nan => none
  | .val q => if q.den = 1 then some q.num else none

/-- Modelled from the spec: the Car table declares price as a decimal
number column, so the store accepts any finite JS number and rejects
NaN as a store error. -/
def JsNum.asRat : JsNum → Option ℚ
  | .nan => none
  | .val q => some q

/-- Modelled from the spec: `getById` of the Record Store
(prisma.car.findUnique by id) returns the row whose id equals the
given JS number, or nothing. -/
def prismaFindUnique (s : StoreState) (n : JsNum) : Option Car :=
  match n with
  | .nan => none
  | .val q => s.cars.find? fun c => decide ((c.id : ℚ) = q)

/-- Modelled from the spec: `create` of the Record Store
(prisma.car.create) validates the numeric columns, assigns the next
id, appends the row and returns it; a NaN numeric field is a store
error. -/
def prismaCreate (s : StoreState) (d : CarData) : Except Unit (Car × StoreState) :=
  match d.year.asInt, d.price.asRat with
  | some y, some p =>
      let c : Car :=
        ⟨s.nextId, d.name, d.brand, d.model, y, p, d.description, d.imageName⟩
      .ok (c, ⟨s.cars ++ [c], s.nextId + 1⟩)
  | _, _ => .error ()

/-- Modelled from the spec: `update` of the Record Store
(prisma.car.update by id) validates the numeric columns and overwrites
every non-id field of the row with the given data, returning the
updated row; a missing row or a NaN numeric field is a store error. -/
def prismaUpdate (s : StoreState) (n : JsNum) (d : CarData) : Except Unit (Car × StoreState) :=
  match prismaFindUnique s n with
  | none => .error ()
  | some old =>
      match d.year.asInt, d.price.asRat with
      | some y, some p =>
          let c : Car :=
            ⟨old.id, d.name, d.brand, d.model, y, p, d.description, d.imageName⟩
          .ok (c, ⟨s.cars.map fun x => if x.id = old.id then c else x, s.nextId⟩)
      | _, _ => .error ()

/-- Modelled from the spec: `delete` of the Record Store
(prisma.car.delete by id) removes the row with the given id. -/
def prismaDelete (s : StoreState) (n : JsNum) : StoreState :=
  match n with
  | .nan => s
  | .val q => ⟨s.cars.filter fun c => decide ((c.id : ℚ) ≠ q), s.nextId⟩

/-- One observable side effect of a request, in program order: a store
access, the initiation of a fire-and-forget unlink of an image file,
or the console log a failed unlink callback writes. -/
inductive Event where
  | storeList : Event
  | storeRead : JsNum → Event
  | storeCreate : Event
  | storeUpdate : JsNum → Event
  | storeDelete : JsNum → Event
  | unlinkInit : String → Event
  | logFsError : String → Event
deriving DecidableEq, Repr

/-- An HTTP response of the router: a JSON car, a JSON car list, a
plain-text body with a status code, or the generic failure produced by
an unhandled store error. -/
inductive Response where
  | jsonCar : Car → Response
  | jsonCars : List Car → Response
  | text : Nat → String → Response
  | serverError : Response
deriving DecidableEq, Repr

/-- What a handler produces: the response, the store state after the
request, and the ordered trace of events it performed. -/
structure HandlerResult where
  response : Response
  state : StoreState
  trace : List Event
deriving DecidableEq, Repr

/-- The trace of one fs.unlink call on a file: the unlink is initiated
and, when the environment makes it fail, the error callback logs; the
outcome reaches nothing else. -/
def unlinkTrace (fsFail : String → Bool) (f : String) : List Event :=
  Event.unlinkInit f :: (if fsFail f then [Event.logFsError f] else [])

/-- The unlink the update handler performs: only when a new file was
uploaded and the record already had an image, the old image file. -/
def updateUnlink (fsFail : String → Bool) (file img : Option String) : List Event :=
  match file, img with
  | some _, some old => unlinkTrace fsFail old
  | _, _ => []

/-- The unlink the delete handler performs: the image file of the
deleted record, when it had one. -/
def deleteUnlink (fsFail : String → Bool) (img : Option String) : List Event :=
  match img with
  | some f => unlinkTrace fsFail f
  | none => []

/-- GET /all: list every car. -/
def allCars (s : StoreState) : HandlerResult :=
  ⟨.jsonCars s.cars, s, [.storeList]⟩

/-- GET /read/:id — src/routes/cars.js lines 37-57: reject with 400
when isNaN(id), otherwise findUnique by parseInt(id) and answer the
car as JSON or 404. -/
def readCar (s : StoreState) (idParam : String) : HandlerResult :=
  if jsIsNaN idParam then ⟨.text 400 "Invalid car id.", s, []⟩
  else
    let n := jsParseIntStr idParam
    match prismaFindUnique s n with
    | some car => ⟨.jsonCar car, s, [.storeRead n]⟩
    | none => ⟨.text 404 "Car not found.", s, [.storeRead n]⟩

/-- The six body form fields of create and update: the text fields as
optional strings, the numeric-intent fields as JS values so that both
form-data strings and JSON numbers are covered. -/
structure CarBody where
  name : Option String
  brand : Option String
  model : Option String
  year : JsValue
  price : JsValue
  description : Option String
deriving DecidableEq, Repr

/-- POST /create — src/routes/cars.js lines 60-83: 400 when any of the
five required fields is falsy, otherwise create with parseInt(year),
parseFloat(price), `description || ""` and the uploaded filename (null
when no file), answering the created car as JSON. -/
def createCar (s : StoreState) (body : CarBody) (file : Option String) : HandlerResult :=
  let filename := file
  if truthyStr body.name && truthyStr body.brand && truthyStr body.model &&
     body.year.truthy && body.price.truthy then
    match prismaCreate s ⟨body.name.getD "", body.brand.getD "", body.model.getD "",
        parseIntVal body.year, parseFloatVal body.price,
        orElseStr body.description "", filename⟩ with
    | .ok (car, s2) => ⟨.jsonCar car, s2, [.storeCreate]⟩
    | .error _ => ⟨.serverError, s, [.storeCreate]⟩
  else ⟨.text 400 "Required fields must have a value.", s, []⟩

/-- The updatedData object of the update handler — src/routes/cars.js
lines 104-112: each field keeps the stored value when the body value
is falsy; year and price go through parseInt and parseFloat when
truthy; the image name is the new upload when present. -/
def updatedData (car : Car) (body : CarBody) (file : Option String) : CarData :=
  ⟨orElseStr body.name car.name,
   orElseStr body.brand car.brand,
   orElseStr body.model car.model,
   if body.year.truthy then parseIntVal body.year else .val (car.year : ℚ),
   if body.price.truthy then parseFloatVal body.price else .val car.price,
   orElseStr body.description car.description,
   match file with
   | some f => some f
   | none => car.imageName⟩

/-- PUT /update/:id — src/routes/cars.js lines 86-130: 400 when
isNaN(id); findUnique by parseInt(id), 404 when absent; build
updatedData; when a file was uploaded and the record had an image,
initiate the fire-and-forget unlink of the old image; then store the
update and answer the updated car as JSON. -/
def updateCar (fsFail : String → Bool) (s : StoreState) (idParam : String)
    (body : CarBody) (file : Option String) : HandlerResult :=
  if jsIsNaN idParam then ⟨.text 400 "Invalid car id.", s, []⟩
  else
    let n := jsParseIntStr idParam
    match prismaFindUnique s n with
    | none => ⟨.text 404 "Car not found.", s, [.storeRead n]⟩
    | some car =>
        let d := updatedData car body file
        let unlink := updateUnlink fsFail file car.imageName
        match prismaUpdate s n d with
        | .ok (u, s2) => ⟨.jsonCar u, s2, .storeRead n :: unlink ++ [.storeUpdate n]⟩
        | .error _ => ⟨.serverError, s, .storeRead n :: unlink ++ [.storeUpdate n]⟩

/-- DELETE /delete/:id — src/routes/cars.js lines 133-164: 400 when
isNaN(id); findUnique by parseInt(id), 404 when absent; delete the
row; when the record had an image, initiate the fire-and-forget unlink
of its file; answer a plain-text confirmation. -/
def deleteCar (fsFail : String → Bool) (s : StoreState) (idParam : String) : HandlerResult :=
  if jsIsNaN idParam then ⟨.text 400 "Invalid car id.", s, []⟩
  else
    let n := jsParseIntStr idParam
    match prismaFindUnique s n with
    | none => ⟨.text 404 "Car not found.", s, [.storeRead n]⟩
    | some car =>
        let s2 := prismaDelete s n
        let unlink := deleteUnlink fsFail car.imageName
        ⟨.text 200 "Car deleted successfully.", s2, .storeRead n :: .storeDelete n :: unlink⟩

/-- The car row prisma.car.update writes for an existing row `car`,
merge data `updatedData car body file` and accepted numeric values
`y` and `p`. -/
def mergedCar (car : Car) (body : CarBody) (file : Option String) (y : Int) (p : ℚ) : Car :=
  ⟨car.id, (updatedData car body file).name, (updatedData car body file).brand,
   (updatedData car body file).model, y, p, (updatedData car body file).description,
   (updatedData car body file).imageName⟩

lemma asInt_val_intCast (n : Int) : (JsNum.val (n : ℚ)).asInt = some n := by
  simp [JsNum.asInt, Rat.den_intCast, Rat.num_intCast]

lemma asRat_val (q : ℚ) : (JsNum.val q).asRat = some q := rfl

lemma findUnique_mem (s : StoreState) (n : JsNum) (car : Car)
    (h : prismaFindUnique s n = some car) : car ∈ s.cars := by
  cases n with
  | nan => simp [prismaFindUnique] at h
  | val q => exact List.mem_of_find?_eq_some h

lemma find_fresh (l : List Car) (c : Car) (h : ∀ x ∈ l, x.id ≠ c.id) :
    (l ++ [c]).find? (fun x => decide ((x.id : ℚ) = (c.id : ℚ))) = some c := by
  induction l with
  | nil => simp [List.find?]
  | cons a l ih =>
      have ha : ((a.id : ℚ) = (c.id : ℚ)) = False := by
        simp only [Nat.cast_inj, eq_iff_iff, iff_false]
        exact h a (List.mem_cons_self a l)
      simp only [List.cons_append, List.find?_cons, ha, decide_False]
      exact ih fun x hx => h x (List.mem_cons_of_mem a hx)

lemma createCar_ok (s : StoreState) (body : CarBody) (file : Option String) (y : Int) (p : ℚ)
    (h1 : truthyStr body.name = true) (h2 : truthyStr body.brand = true)
    (h3 : truthyStr body.model = true) (h4 : body.year.truthy = true)
    (h5 : body.price.truthy = true)
    (hy : (parseIntVal body.year).asInt = some y)
    (hp : (parseFloatVal body.price).asRat = some p) :
    createCar s body file =
      ⟨.jsonCar ⟨s.nextId, body.name.getD "", body.brand.getD "", body.model.getD "",
          y, p, orElseStr body.description "", file⟩,
       ⟨s.cars ++ [⟨s.nextId, body.name.getD "", body.brand.getD "", body.model.getD "",
          y, p, orElseStr body.description "", file⟩], s.nextId + 1⟩,
       [.storeCreate]⟩ := by
  simp only [createCar, h1, h2, h3, h4, h5, Bool.and_self, if_true]
  simp [prismaCreate, hy, hp]

lemma updateCar_ok (fsFail : String → Bool) (s : StoreState) (idParam : String)
    (body : CarBody) (file : Option String) (car : Car) (y : Int) (p : ℚ)
    (hid : jsIsNaN idParam = false)
    (hfind : prismaFindUnique s (jsParseIntStr idParam) = some car)
    (hy : (updatedData car body file).year.asInt = some y)
    (hp : (updatedData car body file).price.asRat = some p) :
    updateCar fsFail s idParam body file =
      ⟨.jsonCar (mergedCar car body file y p),
       ⟨s.cars.map fun x => if x.id = car.id then mergedCar car body file y p else x, s.nextId⟩,
       .storeRead (jsParseIntStr idParam) ::
         updateUnlink fsFail file car.imageName ++ [.storeUpdate (jsParseIntStr idParam)]⟩ := by
  simp only [updateCar, hid, Bool.false_eq_true, if_false, hfind]
  simp [prismaUpdate, hfind, hy, hp, mergedCar]

lemma updateCar_err (fsFail : String → Bool) (s : StoreState) (idParam : String)
    (body : CarBody) (file : Option String) (car : Car)
    (hid : jsIsNaN idParam = false)
    (hfind : prismaFindUnique s (jsParseIntStr idParam) = some car)
    (hbad : (updatedData car body file).year.asInt = none ∨
            (updatedData car body file).price.asRat = none) :
    updateCar fsFail s idParam body file =
      ⟨.serverError, s,
       .storeRead (jsParseIntStr idParam) ::
         updateUnlink fsFail file car.imageName ++ [.storeUpdate (jsParseIntStr idParam)]⟩ := by
  simp only [updateCar, hid, Bool.false_eq_true, if_false, hfind]
  rcases hbad with h | h
  · simp [prismaUpdate, hfind, h]
  · cases hA : (updatedData car body file).year.asInt <;>
      simp [prismaUpdate, hfind, h, hA]

/-- Claim C3: a POST /create request in which any required field among
name, brand, model, year, price is missing is answered 400 with a
plain-text message, the store is never accessed, and no record is
created (the record count is unchanged). -/
theorem C3_create_missing_field_rejected (s : StoreState) (body : CarBody)
    (file : Option String)
    (h : body.name = none ∨ body.brand = none ∨ body.model = none ∨
         body.year = JsValue.undefined ∨ body.price = JsValue.undefined) :
    (createCar s body file).response = .text 400 "Required fields must have a value." ∧
    (createCar s body file).state = s ∧
    (createCar s body file).trace = [] ∧
    (createCar s body file).state.cars.length = s.cars.length := by
  have hguard : (truthyStr body.name && truthyStr body.brand && truthyStr body.model &&
      body.year.truthy && body.price.truthy) = false := by
    rcases h with h | h | h | h | h <;> simp [h, truthyStr, JsValue.truthy]
  simp [createCar, hguard]

/-- Witness for C3 at a concrete request omitting price. -/
theorem C3_create_missing_field_rejected_witness :
    (createCar ⟨[], 1⟩ ⟨some "Model S", some "Tesla", some "S", .str "2023", .undefined, none⟩
        none).response = .text 400 "Required fields must have a value." ∧
    (createCar ⟨[], 1⟩ ⟨some "Model S", some "Tesla", some "S", .str "2023", .undefined, none⟩
        none).state = ⟨[], 1⟩ ∧
    (createCar ⟨[], 1⟩ ⟨some "Model S", some "Tesla", some "S", .str "2023", .undefined, none⟩
        none).trace = [] ∧
    (createCar ⟨[], 1⟩ ⟨some "Model S", some "Tesla", some "S", .str "2023", .undefined, none⟩
        none).state.cars.length = (⟨[], 1⟩ : StoreState).cars.length :=
  C3_create_missing_field_rejected ⟨[], 1⟩
    ⟨some "Model S", some "Tesla", some "S", .str "2023", .undefined, none⟩ none
    (Or.inr (Or.inr (Or.inr (Or.inr rfl))))

/-- Claim C9: a POST /create whose five required fields are truthy but
whose year or price parses to NaN is not rejected with 400: the
request reaches the store and fails there, surfacing as the generic
store failure. -/
theorem C9_create_nan_reaches_store (s : StoreState) (body : CarBody) (file : Option String)
    (h1 : truthyStr body.name = true) (h2 : truthyStr body.brand = true)
    (h3 : truthyStr body.model = true) (h4 : body.year.truthy = true)
    (h5 : body.price.truthy = true)
    (h6 : parseIntVal body.year = JsNum.nan ∨ parseFloatVal body.price = JsNum.nan) :
    (createCar s body file).response = .serverError ∧
    (createCar s body file).trace = [.storeCreate] ∧
    (createCar s body file).state = s ∧
    ∀ k m, (createCar s body file).response ≠ .text k m := by
  have hc : prismaCreate s ⟨body.name.getD "", body.brand.getD "", body.model.getD "",
      parseIntVal body.year, parseFloatVal body.price,
      orElseStr body.description "", file⟩ = .error () := by
    rcases h6 with h | h
    · simp [prismaCreate, h, JsNum.asInt]
    · cases hA : (parseIntVal body.year).asInt <;>
        simp [prismaCreate, h, hA, JsNum.asRat]
  simp [createCar, h1, h2, h3, h4, h5, hc]

/-- Witness for C9 at a concrete request with a non-numeric year. -/
theorem C9_create_nan_reaches_store_witness :
    (createCar ⟨[], 1⟩ ⟨some "Model S", some "Tesla", some "S", .str "abc", .str "5", none⟩
        none).response = .serverError ∧
    (createCar ⟨[], 1⟩ ⟨some "Model S", some "Tesla", some "S", .str "abc", .str "5", none⟩
        none).trace = [.storeCreate] ∧
    (createCar ⟨[], 1⟩ ⟨some "Model S", some "Tesla", some "S", .str "abc", .str "5", none⟩
        none).state = ⟨[], 1⟩ ∧
    ∀ k m, (createCar ⟨[], 1⟩ ⟨some "Model S", some "Tesla", some "S", .str "abc", .str "5", none⟩
        none).response ≠ .text k m :=
  C9_create_nan_reaches_store ⟨[], 1⟩
    ⟨some "Model S", some "Tesla", some "S", .str "abc", .str "5", none⟩ none
    (by decide) (by decide) (by decide) (by decide) (by decide) (Or.inl (by decide))

/-- Claim C2 counterexample: the path parameter "12.5" does not parse
as a base-10 integer, yet GET /read/:id does not answer 400: the
Number-coercion isNaN check passes and the store is accessed with the
truncated value 12. -/
theorem C2_counterexample :
    jsIsNaN "12.5" = false ∧
    jsParseIntStr "12.5" = JsNum.val 12 ∧
    (readCar ⟨[], 1⟩ "12.5").response = Response.text 404 "Car not found." ∧
    (readCar ⟨[], 1⟩ "12.5").response ≠ Response.text 400 "Invalid car id." ∧
    (readCar ⟨[], 1⟩ "12.5").trace = [Event.storeRead (JsNum.val 12)] := by
  decide

/-- Claim C2 as amended: the three id routes validate the path
parameter with the JS isNaN check (Number coercion): an id whose
coercion is NaN is answered 400 with no store access and unchanged
state; any other id reaches the store as parseInt of the id, which
need not be the integer the id denotes. -/
theorem C2_amended_isnan_gate (fsFail : String → Bool) (s : StoreState) (idParam : String)
    (body : CarBody) (file : Option String) :
    (jsIsNaN idParam = true →
       readCar s idParam = ⟨.text 400 "Invalid car id.", s, []⟩ ∧
       updateCar fsFail s idParam body file = ⟨.text 400 "Invalid car id.", s, []⟩ ∧
       deleteCar fsFail s idParam = ⟨.text 400 "Invalid car id.", s, []⟩) ∧
    (jsIsNaN idParam = false →
       Event.storeRead (jsParseIntStr idParam) ∈ (readCar s idParam).trace ∧
       Event.storeRead (jsParseIntStr idParam) ∈ (updateCar fsFail s idParam body file).trace ∧
       Event.storeRead (jsParseIntStr idParam) ∈ (deleteCar fsFail s idParam).trace) := by
  constructor
  · intro h
    refine ⟨?_, ?_, ?_⟩ <;> simp [readCar, updateCar, deleteCar, h]
  · intro h
    refine ⟨?_, ?_, ?_⟩
    · cases hf : prismaFindUnique s (jsParseIntStr idParam) <;> simp [readCar, h, hf]
    · cases hf : prismaFindUnique s (jsParseIntStr idParam) with
      | none => simp [updateCar, h, hf]
      | some car =>
          cases hu : prismaUpdate s (jsParseIntStr idParam) (updatedData car body file) <;>
            simp [updateCar, h, hf, hu]
    · cases hf : prismaFindUnique s (jsParseIntStr idParam) <;> simp [deleteCar, h, hf]

/-- Witness for the amended C2: the rejecting direction at "abc" and
the store-reaching direction at "7". -/
theorem C2_amended_isnan_gate_witness :
    (readCar ⟨[], 1⟩ "abc" = ⟨.text 400 "Invalid car id.", ⟨[], 1⟩, []⟩ ∧
     updateCar (fun _ => false) ⟨[], 1⟩ "abc" ⟨none, none, none, .undefined, .undefined, none⟩
       none = ⟨.text 400 "Invalid car id.", ⟨[], 1⟩, []⟩ ∧
     deleteCar (fun _ => false) ⟨[], 1⟩ "abc" = ⟨.text 400 "Invalid car id.", ⟨[], 1⟩, []⟩) ∧
    (Event.storeRead (jsParseIntStr "7") ∈ (readCar ⟨[], 1⟩ "7").trace ∧
     Event.storeRead (jsParseIntStr "7") ∈
       (updateCar (fun _ => false) ⟨[], 1⟩ "7" ⟨none, none, none, .undefined, .undefined, none⟩
         none).trace ∧
     Event.storeRead (jsParseIntStr "7") ∈ (deleteCar (fun _ => false) ⟨[], 1⟩ "7").trace) :=
  ⟨(C2_amended_isnan_gate (fun _ => false) ⟨[], 1⟩ "abc"
      ⟨none, none, none, .undefined, .undefined, none⟩ none).1 (by decide),
   (C2_amended_isnan_gate (fun _ => false) ⟨[], 1⟩ "7"
      ⟨none, none, none, .undefined, .undefined, none⟩ none).2 (by decide)⟩

/-- Claim C4: DELETE /delete/:id with an id passing the numeric check:
when no car with that id exists the response is 404 and nothing is
deleted; otherwise the record is removed permanently, an unlink of its
image file is initiated when it had one, a filesystem failure changes
neither the response nor the state (it is only logged), and the
response is a 200 plain-text confirmation. -/
theorem C4_delete_behavior (fsFail fsFail2 : String → Bool) (s : StoreState) (idParam : String)
    (hid : jsIsNaN idParam = false) :
    (prismaFindUnique s (jsParseIntStr idParam) = none →
       (deleteCar fsFail s idParam).response = .text 404 "Car not found." ∧
       (deleteCar fsFail s idParam).state = s) ∧
    (∀ car, prismaFindUnique s (jsParseIntStr idParam) = some car →
       (deleteCar fsFail s idParam).response = .text 200 "Car deleted successfully." ∧
       (deleteCar fsFail s idParam).state.cars =
         s.cars.filter (fun c => decide (c.id ≠ car.id)) ∧
       (∀ f, car.imageName = some f →
          Event.unlinkInit f ∈ (deleteCar fsFail s idParam).trace) ∧
       (deleteCar fsFail s idParam).response = (deleteCar fsFail2 s idParam).response ∧
       (deleteCar fsFail s idParam).state = (deleteCar fsFail2 s idParam).state) := by
  constructor
  · intro h
    simp [deleteCar, hid, h]
  · intro car hf
    cases hn : jsParseIntStr idParam with
    | nan => rw [hn] at hf; simp [prismaFindUnique] at hf
    | val q =>
        rw [hn] at hf
        have hf3 : List.find? (fun c => decide ((c.id : ℚ) = q)) s.cars = some car := hf
        have hp := List.find?_some hf3
        have hq : (car.id : ℚ) = q := by simpa using hp
        have hfilter : s.cars.filter (fun c => decide ((c.id : ℚ) ≠ q)) =
            s.cars.filter (fun c => decide (c.id ≠ car.id)) := by
          apply List.filter_congr
          intro c _
          rw [decide_eq_decide, ← hq]
          exact not_congr Nat.cast_inj
        have hD : deleteCar fsFail s idParam =
            ⟨.text 200 "Car deleted successfully.",
             ⟨s.cars.filter (fun c => decide ((c.id : ℚ) ≠ q)), s.nextId⟩,
             .storeRead (.val q) :: .storeDelete (.val q) ::
               deleteUnlink fsFail car.imageName⟩ := by
          simp [deleteCar, hid, hn, hf, prismaDelete]
        have hD2 : deleteCar fsFail2 s idParam =
            ⟨.text 200 "Car deleted successfully.",
             ⟨s.cars.filter (fun c => decide ((c.id : ℚ) ≠ q)), s.nextId⟩,
             .storeRead (.val q) :: .storeDelete (.val q) ::
               deleteUnlink fsFail2 car.imageName⟩ := by
          simp [deleteCar, hid, hn, hf, prismaDelete]
        rw [hD, hD2]
        refine ⟨rfl, hfilter, ?_, rfl, rfl⟩
        intro f hf2
        simp [deleteUnlink, hf2, unlinkTrace]

/-- Witness for C4: the not-found direction at id 9 and the removal
direction at id 1 of a one-car store, under a failing filesystem. -/
theorem C4_delete_behavior_witness :
    ((deleteCar (fun _ => true) ⟨[⟨1, "A", "B", "M", 1999, 10, "", some "img.png"⟩], 2⟩
        "9").response = .text 404 "Car not found." ∧
     (deleteCar (fun _ => true) ⟨[⟨1, "A", "B", "M", 1999, 10, "", some "img.png"⟩], 2⟩
        "9").state = ⟨[⟨1, "A", "B", "M", 1999, 10, "", some "img.png"⟩], 2⟩) ∧
    ((deleteCar (fun _ => true) ⟨[⟨1, "A", "B", "M", 1999, 10, "", some "img.png"⟩], 2⟩
        "1").response = .text 200 "Car deleted successfully." ∧
     (deleteCar (fun _ => true) ⟨[⟨1, "A", "B", "M", 1999, 10, "", some "img.png"⟩], 2⟩
        "1").state.cars =
       (⟨[⟨1, "A", "B", "M", 1999, 10, "", some "img.png"⟩], 2⟩ : StoreState).cars.filter
         (fun c => decide (c.id ≠ (⟨1, "A", "B", "M", 1999, 10, "", some "img.png"⟩ : Car).id)) ∧
     (∀ f, (⟨1, "A", "B", "M", 1999, 10, "", some "img.png"⟩ : Car).imageName = some f →
        Event.unlinkInit f ∈
          (deleteCar (fun _ => true) ⟨[⟨1, "A", "B", "M", 1999, 10, "", some "img.png"⟩], 2⟩
            "1").trace) ∧
     (deleteCar (fun _ => true) ⟨[⟨1, "A", "B", "M", 1999, 10, "", some "img.png"⟩], 2⟩
        "1").response =
       (deleteCar (fun _ => false) ⟨[⟨1, "A", "B", "M", 1999, 10, "", some "img.png"⟩], 2⟩
        "1").response ∧
     (deleteCar (fun _ => true) ⟨[⟨1, "A", "B", "M", 1999, 10, "", some "img.png"⟩], 2⟩
        "1").state =
       (deleteCar (fun _ => false) ⟨[⟨1, "A", "B", "M", 1999, 10, "", some "img.png"⟩], 2⟩
        "1").state) :=
  ⟨(C4_delete_behavior (fun _ => true) (fun _ => false)
      ⟨[⟨1, "A", "B", "M", 1999, 10, "", some "img.png"⟩], 2⟩ "9" (by decide)).1 (by decide),
   (C4_delete_behavior (fun _ => true) (fun _ => false)
      ⟨[⟨1, "A", "B", "M", 1999, 10, "", some "img.png"⟩], 2⟩ "1" (by decide)).2
     ⟨1, "A", "B", "M", 1999, 10, "", some "img.png"⟩ (by decide)⟩

/-- Claim C5: on PUT /update/:id of an existing car, the unlink of an
old image file is initiated exactly when a new file was uploaded and
the record already had an image name; a filesystem failure in that
unlink changes neither the response nor the state (it is only
logged). -/
theorem C5_update_image_replacement (fsFail fsFail2 : String → Bool) (s : StoreState)
    (idParam : String) (body : CarBody) (file : Option String) (car : Car)
    (hid : jsIsNaN idParam = false)
    (hfind : prismaFindUnique s (jsParseIntStr idParam) = some car) :
    (∀ old, Event.unlinkInit old ∈ (updateCar fsFail s idParam body file).trace ↔
       (file ≠ none ∧ car.imageName = some old)) ∧
    (updateCar fsFail s idParam body file).response =
      (updateCar fsFail2 s idParam body file).response ∧
    (updateCar fsFail s idParam body file).state =
      (updateCar fsFail2 s idParam body file).state := by
  have hmem : ∀ g old, Event.unlinkInit old ∈ updateUnlink g file car.imageName ↔
      (file ≠ none ∧ car.imageName = some old) := by
    intro g old
    cases file with
    | none => simp [updateUnlink]
    | some f =>
        cases himg : car.imageName with
        | none => simp [updateUnlink]
        | some o =>
            cases hg : g o <;> simp [updateUnlink, unlinkTrace, hg, eq_comm]
  cases hu : prismaUpdate s (jsParseIntStr idParam) (updatedData car body file) with
  | ok r =>
      refine ⟨?_, ?_, ?_⟩ <;>
        simp [updateCar, hid, hfind, hu, hmem]
  | error e =>
      refine ⟨?_, ?_, ?_⟩ <;>
        simp [updateCar, hid, hfind, hu, hmem]

/-- Witness for C5: a one-car store with an existing image, a new
upload and a failing filesystem. -/
theorem C5_update_image_replacement_witness :
    (∀ old, Event.unlinkInit old ∈
        (updateCar (fun _ => true) ⟨[⟨1, "A", "B", "M", 1999, 10, "", some "img.png"⟩], 2⟩ "1"
          ⟨none, none, none, .undefined, .undefined, none⟩ (some "new.png")).trace ↔
       ((some "new.png" : Option String) ≠ none ∧
        (⟨1, "A", "B", "M", 1999, 10, "", some "img.png"⟩ : Car).imageName = some old)) ∧
    (updateCar (fun _ => true) ⟨[⟨1, "A", "B", "M", 1999, 10, "", some "img.png"⟩], 2⟩ "1"
        ⟨none, none, none, .undefined, .undefined, none⟩ (some "new.png")).response =
      (updateCar (fun _ => false) ⟨[⟨1, "A", "B", "M", 1999, 10, "", some "img.png"⟩], 2⟩ "1"
        ⟨none, none, none, .undefined, .undefined, none⟩ (some "new.png")).response ∧
    (updateCar (fun _ => true) ⟨[⟨1, "A", "B", "M", 1999, 10, "", some "img.png"⟩], 2⟩ "1"
        ⟨none, none, none, .undefined, .undefined, none⟩ (some "new.png")).state =
      (updateCar (fun _ => false) ⟨[⟨1, "A", "B", "M", 1999, 10, "", some "img.png"⟩], 2⟩ "1"
        ⟨none, none, none, .undefined, .undefined, none⟩ (some "new.png")).state :=
  C5_update_image_replacement (fun _ => true) (fun _ => false)
    ⟨[⟨1, "A", "B", "M", 1999, 10, "", some "img.png"⟩], 2⟩ "1"
    ⟨none, none, none, .undefined, .undefined, none⟩ (some "new.png")
    ⟨1, "A", "B", "M", 1999, 10, "", some "img.png"⟩ (by decide) (by decide)

/-- Claim C1 counterexample: updating car 1 (stored year 1999) with
the form-data field year="0" does not keep the stored year — the
string "0" is truthy, parses to 0 and overwrites, so a year equal to 0
in the input is not treated as "not provided". -/
theorem C1_counterexample :
    (updateCar (fun _ => false) ⟨[⟨1, "A", "B", "M", 1999, 10, "", none⟩], 2⟩ "1"
        ⟨none, none, none, .str "0", .undefined, none⟩ none).response =
      .jsonCar ⟨1, "A", "B", "M", 0, 10, "", none⟩ ∧
    (updateCar (fun _ => false) ⟨[⟨1, "A", "B", "M", 1999, 10, "", none⟩], 2⟩ "1"
        ⟨none, none, none, .str "0", .undefined, none⟩ none).response ≠
      .jsonCar ⟨1, "A", "B", "M", 1999, 10, "", none⟩ := by
  decide

/-- Claim C1 as amended: on PUT /update/:id of an existing car whose
merged numeric fields the store accepts, the update merges by JS
truthiness: a falsy field of the input — omitted, an empty string, or
a JSON number 0 for year/price — keeps the stored value, a truthy
field overwrites (so a form-data string "0" does overwrite), and the
merged record is persisted and returned. -/
theorem C1_amended_update_merge (fsFail : String → Bool) (s : StoreState) (idParam : String)
    (body : CarBody) (file : Option String) (car : Car) (y : Int) (p : ℚ)
    (hid : jsIsNaN idParam = false)
    (hfind : prismaFindUnique s (jsParseIntStr idParam) = some car)
    (hy : (updatedData car body file).year.asInt = some y)
    (hp : (updatedData car body file).price.asRat = some p) :
    ∃ u, (updateCar fsFail s idParam body file).response = .jsonCar u ∧
      u ∈ (updateCar fsFail s idParam body file).state.cars ∧
      u.id = car.id ∧
      u.name = orElseStr body.name car.name ∧
      u.brand = orElseStr body.brand car.brand ∧
      u.model = orElseStr body.model car.model ∧
      u.year = y ∧
      u.price = p ∧
      u.description = orElseStr body.description car.description ∧
      (file = none → u.imageName = car.imageName) ∧
      (body.name = none ∨ body.name = some "" → u.name = car.name) ∧
      (body.year.truthy = false → u.year = car.year) ∧
      (body.price.truthy = false → u.price = car.price) ∧
      (body.year = .num (.val 0) → u.year = car.year) ∧
      (body.price = .num (.val 0) → u.price = car.price) := by
  have hyear0 : body.year.truthy = false → y = car.year := by
    intro ht
    have : (JsNum.val ((car.year : Int) : ℚ)).asInt = some y := by
      simpa [updatedData, ht] using hy
    rw [asInt_val_intCast] at this
    exact (Option.some_inj.mp this).symm
  have hprice0 : body.price.truthy = false → p = car.price := by
    intro ht
    have : (JsNum.val car.price).asRat = some p := by
      simpa [updatedData, ht] using hp
    rw [asRat_val] at this
    exact (Option.some_inj.mp this).symm
  have hU := updateCar_ok fsFail s idParam body file car y p hid hfind hy hp
  refine ⟨mergedCar car body file y p, ?_, ?_, rfl, rfl, rfl, rfl, rfl, rfl, rfl,
    ?_, ?_, hyear0, hprice0, ?_, ?_⟩
  · rw [hU]
  · rw [hU]
    have hcm : car ∈ s.cars := findUnique_mem s (jsParseIntStr idParam) car hfind
    have := List.mem_map_of_mem
      (fun x => if x.id = car.id then mergedCar car body file y p else x) hcm
    simpa using this
  · intro hf
    simp [mergedCar, updatedData, hf]
  · intro hnm
    rcases hnm with h | h <;> simp [mergedCar, updatedData, orElseStr, h]
  · intro h
    exact hyear0 (by rw [h]; decide)
  · intro h
    exact hprice0 (by rw [h]; decide)

/-- Witness for the amended C1: a JSON-number year 0 and an omitted
price keep the stored values of car 1. -/
theorem C1_amended_update_merge_witness :
    ∃ u, (updateCar (fun _ => false) ⟨[⟨1, "A", "B", "M", 1999, 10, "", none⟩], 2⟩ "1"
        ⟨none, none, none, .num (.val 0), .undefined, none⟩ none).response = .jsonCar u ∧
      u ∈ (updateCar (fun _ => false) ⟨[⟨1, "A", "B", "M", 1999, 10, "", none⟩], 2⟩ "1"
        ⟨none, none, none, .num (.val 0), .undefined, none⟩ none).state.cars ∧
      u.id = (⟨1, "A", "B", "M", 1999, 10, "", none⟩ : Car).id ∧
      u.name = orElseStr none (⟨1, "A", "B", "M", 1999, 10, "", none⟩ : Car).name ∧
      u.brand = orElseStr none (⟨1, "A", "B", "M", 1999, 10, "", none⟩ : Car).brand ∧
      u.model = orElseStr none (⟨1, "A", "B", "M", 1999, 10, "", none⟩ : Car).model ∧
      u.year = 1999 ∧
      u.price = 10 ∧
      u.description = orElseStr none (⟨1, "A", "B", "M", 1999, 10, "", none⟩ : Car).description ∧
      ((none : Option String) = none →
        u.imageName = (⟨1, "A", "B", "M", 1999, 10, "", none⟩ : Car).imageName) ∧
      ((none : Option String) = none ∨ (none : Option String) = some "" →
        u.name = (⟨1, "A", "B", "M", 1999, 10, "", none⟩ : Car).name) ∧
      (JsValue.truthy (.num (.val 0)) = false →
        u.year = (⟨1, "A", "B", "M", 1999, 10, "", none⟩ : Car).year) ∧
      (JsValue.truthy .undefined = false →
        u.price = (⟨1, "A", "B", "M", 1999, 10, "", none⟩ : Car).price) ∧
      ((JsValue.num (.val 0)) = .num (.val 0) →
        u.year = (⟨1, "A", "B", "M", 1999, 10, "", none⟩ : Car).year) ∧
      ((JsValue.undefined : JsValue) = .num (.val 0) →
        u.price = (⟨1, "A", "B", "M", 1999, 10, "", none⟩ : Car).price) :=
  C1_amended_update_merge (fun _ => false) ⟨[⟨1, "A", "B", "M", 1999, 10, "", none⟩], 2⟩ "1"
    ⟨none, none, none, .num (.val 0), .undefined, none⟩ none
    ⟨1, "A", "B", "M", 1999, 10, "", none⟩ 1999 10
    (by decide) (by decide) (by decide) (by decide)

/-- Claim C6: a PUT /update/:id of an existing car providing only a
parseable price — every other form field absent and no file uploaded —
answers the record with name, brand, model, year, description and
imageName unchanged and only price set to the provided value, and
persists it. -/
theorem C6_update_only_price (fsFail : String → Bool) (s : StoreState) (idParam : String)
    (body : CarBody) (car : Car) (p : ℚ)
    (hid : jsIsNaN idParam = false)
    (hfind : prismaFindUnique s (jsParseIntStr idParam) = some car)
    (hn : body.name = none) (hb : body.brand = none) (hm : body.model = none)
    (hyr : body.year = JsValue.undefined) (hd : body.description = none)
    (hpt : body.price.truthy = true)
    (hpp : parseFloatVal body.price = JsNum.val p) :
    (updateCar fsFail s idParam body none).response =
      .jsonCar ⟨car.id, car.name, car.brand, car.model, car.year, p, car.description,
                car.imageName⟩ ∧
    (⟨car.id, car.name, car.brand, car.model, car.year, p, car.description, car.imageName⟩ : Car)
      ∈ (updateCar fsFail s idParam body none).state.cars := by
  have hyt : body.year.truthy = false := by
    rw [hyr]
    rfl
  have hdata : updatedData car body none =
      ⟨car.name, car.brand, car.model, .val ((car.year : Int) : ℚ), .val p,
       car.description, car.imageName⟩ := by
    simp [updatedData, hn, hb, hm, hyt, hd, hpt, hpp, orElseStr]
  have hy : (updatedData car body none).year.asInt = some car.year := by
    rw [hdata]
    exact asInt_val_intCast car.year
  have hp : (updatedData car body none).price.asRat = some p := by
    rw [hdata]
    rfl
  have hU := updateCar_ok fsFail s idParam body none car car.year p hid hfind hy hp
  have hmerged : mergedCar car body none car.year p =
      ⟨car.id, car.name, car.brand, car.model, car.year, p, car.description,
       car.imageName⟩ := by
    simp [mergedCar, hdata]
  constructor
  · rw [hU, hmerged]
  · rw [hU, ← hmerged]
    have hcm : car ∈ s.cars := findUnique_mem s (jsParseIntStr idParam) car hfind
    have := List.mem_map_of_mem
      (fun x => if x.id = car.id then mergedCar car body none car.year p else x) hcm
    simpa using this

/-- Witness for C6: only price "25.5" provided on car 1. -/
theorem C6_update_only_price_witness :
    (updateCar (fun _ => false) ⟨[⟨1, "A", "B", "M", 1999, 10, "", some "img.png"⟩], 2⟩ "1"
        ⟨none, none, none, .undefined, .str "25.5", none⟩ none).response =
      .jsonCar ⟨1, "A", "B", "M", 1999, Rat.divInt 51 2, "", some "img.png"⟩ ∧
    (⟨1, "A", "B", "M", 1999, Rat.divInt 51 2, "", some "img.png"⟩ : Car) ∈
      (updateCar (fun _ => false) ⟨[⟨1, "A", "B", "M", 1999, 10, "", some "img.png"⟩], 2⟩ "1"
        ⟨none, none, none, .undefined, .str "25.5", none⟩ none).state.cars :=
  C6_update_only_price (fun _ => false) ⟨[⟨1, "A", "B", "M", 1999, 10, "", some "img.png"⟩], 2⟩
    "1" ⟨none, none, none, .undefined, .str "25.5", none⟩
    ⟨1, "A", "B", "M", 1999, 10, "", some "img.png"⟩ (Rat.divInt 51 2)
    (by decide) (by decide) rfl rfl rfl rfl rfl (by decide) (by decide)

lemma createCar_jsonCar_inv (s : StoreState) (body : CarBody) (file : Option String)
    (car : Car) (h : (createCar s body file).response = .jsonCar car) :
    car.id = s.nextId ∧ (createCar s body file).state.cars = s.cars ++ [car] := by
  cases hg : (truthyStr body.name && truthyStr body.brand && truthyStr body.model &&
      body.year.truthy && body.price.truthy) with
  | false =>
      rw [createCar] at h
      rw [hg] at h
      simp at h
  | true =>
      rw [createCar] at h ⊢
      rw [hg] at h ⊢
      simp only [if_true] at h ⊢
      cases hA : (parseIntVal body.year).asInt with
      | none => simp [prismaCreate, hA] at h
      | some y =>
          cases hB : (parseFloatVal body.price).asRat with
          | none => simp [prismaCreate, hA, hB] at h
          | some q =>
              simp only [prismaCreate, hA, hB] at h ⊢
              simp at h
              subst h
              simp

/-- Claim C7 counterexample: a POST /create with every required field
present (year is the non-empty string "abc") is not answered with the
created car as JSON: the parse yields NaN, the store rejects it and
the response is the generic failure, with no record created. -/
theorem C7_counterexample :
    (createCar ⟨[], 1⟩ ⟨some "Model S", some "Tesla", some "S", .str "abc", .str "5", none⟩
        none).response = .serverError ∧
    (createCar ⟨[], 1⟩ ⟨some "Model S", some "Tesla", some "S", .str "abc", .str "5", none⟩
        none).state = ⟨[], 1⟩ := by
  decide

/-- Claim C7 as amended: a POST /create whose required fields are
truthy and whose year and price parse to numbers the store accepts is
answered with the created car as JSON: it carries the store-generated
id, echoes the submitted fields with year the parseInt value and
price the parseFloat value, defaults description to the empty string
when omitted, has imageName null when no file was uploaded, and is
persisted. -/
theorem C7_amended_create_echo (s : StoreState) (body : CarBody) (file : Option String)
    (y : Int) (p : ℚ)
    (h1 : truthyStr body.name = true) (h2 : truthyStr body.brand = true)
    (h3 : truthyStr body.model = true) (h4 : body.year.truthy = true)
    (h5 : body.price.truthy = true)
    (hy : (parseIntVal body.year).asInt = some y)
    (hp : (parseFloatVal body.price).asRat = some p) :
    ∃ u, (createCar s body file).response = .jsonCar u ∧
      u.id = s.nextId ∧
      u ∈ (createCar s body file).state.cars ∧
      body.name = some u.name ∧
      body.brand = some u.brand ∧
      body.model = some u.model ∧
      u.year = y ∧
      u.price = p ∧
      (body.description = none → u.description = "") ∧
      u.imageName = file := by
  have hC := createCar_ok s body file y p h1 h2 h3 h4 h5 hy hp
  refine ⟨⟨s.nextId, body.name.getD "", body.brand.getD "", body.model.getD "",
      y, p, orElseStr body.description "", file⟩, ?_, rfl, ?_, ?_, ?_, ?_, rfl, rfl, ?_, rfl⟩
  · rw [hC]
  · rw [hC]
    simp
  · cases hv : body.name with
    | none => rw [hv] at h1; simp [truthyStr] at h1
    | some v => rfl
  · cases hv : body.brand with
    | none => rw [hv] at h2; simp [truthyStr] at h2
    | some v => rfl
  · cases hv : body.model with
    | none => rw [hv] at h3; simp [truthyStr] at h3
    | some v => rfl
  · intro hdesc
    simp [orElseStr, hdesc]

/-- Witness for the amended C7: the specification example, create
Model S / Tesla / S / 2023 / 79999.99 with no image. -/
theorem C7_amended_create_echo_witness :
    ∃ u, (createCar ⟨[], 1⟩
        ⟨some "Model S", some "Tesla", some "S", .str "2023", .str "79999.99", none⟩
        none).response = .jsonCar u ∧
      u.id = (⟨[], 1⟩ : StoreState).nextId ∧
      u ∈ (createCar ⟨[], 1⟩
        ⟨some "Model S", some "Tesla", some "S", .str "2023", .str "79999.99", none⟩
        none).state.cars ∧
      (some "Model S" : Option String) = some u.name ∧
      (some "Tesla" : Option String) = some u.brand ∧
      (some "S" : Option String) = some u.model ∧
      u.year = 2023 ∧
      u.price = Rat.divInt 7999999 100 ∧
      ((none : Option String) = none → u.description = "") ∧
      u.imageName = none :=
  C7_amended_create_echo ⟨[], 1⟩
    ⟨some "Model S", some "Tesla", some "S", .str "2023", .str "79999.99", none⟩
    none 2023 (Rat.divInt 7999999 100)
    (by decide) (by decide) (by decide) (by decide) (by decide) (by decide) (by decide)

/-- Claim C8: when a POST /create answers a created car as JSON, a
GET /read/:id against the resulting store state, with an id string
that passes the isNaN check and parses to the created id, answers 200
with the identical record, field for field. -/
theorem C8_create_read_roundtrip (s : StoreState) (body : CarBody) (file : Option String)
    (car : Car) (idStr : String)
    (hwf : s.WF)
    (hc : (createCar s body file).response = .jsonCar car)
    (h1 : jsIsNaN idStr = false)
    (h2 : jsParseIntStr idStr = .val ((car.id : Nat) : ℚ)) :
    (readCar (createCar s body file).state idStr).response = .jsonCar car := by
  obtain ⟨hcid, hcars⟩ := createCar_jsonCar_inv s body file car hc
  have hfresh : ∀ x ∈ s.cars, x.id ≠ car.id := by
    intro x hx
    have := hwf x hx
    omega
  have hfind : prismaFindUnique (createCar s body file).state
      (JsNum.val ((car.id : Nat) : ℚ)) = some car := by
    show ((createCar s body file).state.cars.find? fun c => decide ((c.id : ℚ) = (car.id : ℚ)))
      = some car
    rw [hcars]
    exact find_fresh s.cars car hfresh
  simp [readCar, h1, h2, hfind]

/-- Witness for C8: create the specification example into an empty
store, then read id "1". -/
theorem C8_create_read_roundtrip_witness :
    (readCar (createCar ⟨[], 1⟩
        ⟨some "Model S", some "Tesla", some "S", .str "2023", .str "79999.99", none⟩
        none).state "1").response =
      .jsonCar ⟨1, "Model S", "Tesla", "S", 2023, Rat.divInt 7999999 100, "", none⟩ :=
  C8_create_read_roundtrip ⟨[], 1⟩
    ⟨some "Model S", some "Tesla", some "S", .str "2023", .str "79999.99", none⟩
    none ⟨1, "Model S", "Tesla", "S", 2023, Rat.divInt 7999999 100, "", none⟩ "1"
    (by decide) (by decide) (by decide) (by decide)

/-- Claim C10: on PUT /update/:id of an existing car with a prior
image and a new upload, the unlink of the old image is initiated
before the store update; hence when the store update fails the
response is the generic failure, the state is unchanged — the record
still referencing the old image remains stored — although the unlink
of that image was already initiated: the update is not atomic across
the Record Store and the Image Store. -/
theorem C10_update_not_atomic (fsFail : String → Bool) (s : StoreState) (idParam : String)
    (body : CarBody) (file : Option String) (car : Car) (fnew old : String)
    (hid : jsIsNaN idParam = false)
    (hfind : prismaFindUnique s (jsParseIntStr idParam) = some car)
    (hfile : file = some fnew)
    (himg : car.imageName = some old) :
    (∃ suf, (updateCar fsFail s idParam body file).trace =
        [.storeRead (jsParseIntStr idParam), .unlinkInit old] ++ suf ∧
        Event.storeUpdate (jsParseIntStr idParam) ∈ suf) ∧
    ((updatedData car body file).year.asInt = none ∨
        (updatedData car body file).price.asRat = none →
      (updateCar fsFail s idParam body file).response = .serverError ∧
      (updateCar fsFail s idParam body file).state = s ∧
      car ∈ (updateCar fsFail s idParam body file).state.cars ∧
      Event.unlinkInit old ∈ (updateCar fsFail s idParam body file).trace) := by
  have htr : (updateCar fsFail s idParam body file).trace =
      .storeRead (jsParseIntStr idParam) ::
        updateUnlink fsFail file car.imageName ++ [.storeUpdate (jsParseIntStr idParam)] := by
    cases hu : prismaUpdate s (jsParseIntStr idParam) (updatedData car body file) with
    | ok r => simp [updateCar, hid, hfind, hu]
    | error e => simp [updateCar, hid, hfind, hu]
  constructor
  · refine ⟨(if fsFail old then [.logFsError old] else []) ++
      [.storeUpdate (jsParseIntStr idParam)], ?_, ?_⟩
    · rw [htr, hfile, himg]
      simp [updateUnlink, unlinkTrace]
    · cases hff : fsFail old <;> simp
  · intro hbad
    have hE := updateCar_err fsFail s idParam body file car hid hfind hbad
    refine ⟨?_, ?_, ?_, ?_⟩
    · rw [hE]
    · rw [hE]
    · rw [hE]
      exact findUnique_mem s (jsParseIntStr idParam) car hfind
    · rw [htr, hfile, himg]
      simp [updateUnlink, unlinkTrace]

/-- Witness for C10: car 1 with image img.png, new upload new.png and
the non-parsing year "abc". -/
theorem C10_update_not_atomic_witness :
    (∃ suf, (updateCar (fun _ => false) ⟨[⟨1, "A", "B", "M", 1999, 10, "", some "img.png"⟩], 2⟩
        "1" ⟨none, none, none, .str "abc", .undefined, none⟩ (some "new.png")).trace =
        [.storeRead (jsParseIntStr "1"), .unlinkInit "img.png"] ++ suf ∧
        Event.storeUpdate (jsParseIntStr "1") ∈ suf) ∧
    ((updateCar (fun _ => false) ⟨[⟨1, "A", "B", "M", 1999, 10, "", some "img.png"⟩], 2⟩
        "1" ⟨none, none, none, .str "abc", .undefined, none⟩ (some "new.png")).response =
        .serverError ∧
      (updateCar (fun _ => false) ⟨[⟨1, "A", "B", "M", 1999, 10, "", some "img.png"⟩], 2⟩
        "1" ⟨none, none, none, .str "abc", .undefined, none⟩ (some "new.png")).state =
        ⟨[⟨1, "A", "B", "M", 1999, 10, "", some "img.png"⟩], 2⟩ ∧
      (⟨1, "A", "B", "M", 1999, 10, "", some "img.png"⟩ : Car) ∈
        (updateCar (fun _ => false) ⟨[⟨1, "A", "B", "M", 1999, 10, "", some "img.png"⟩], 2⟩
          "1" ⟨none, none, none, .str "abc", .undefined, none⟩ (some "new.png")).state.cars ∧
      Event.unlinkInit "img.png" ∈
        (updateCar (fun _ => false) ⟨[⟨1, "A", "B", "M", 1999, 10, "", some "img.png"⟩], 2⟩
          "1" ⟨none, none, none, .str "abc", .undefined, none⟩ (some "new.png")).trace) :=
  ⟨(C10_update_not_atomic (fun _ => false)
      ⟨[⟨1, "A", "B", "M", 1999, 10, "", some "img.png"⟩], 2⟩
      "1" ⟨none, none, none, .str "abc", .undefined, none⟩ (some "new.png")
      ⟨1, "A", "B", "M", 1999, 10, "", some "img.png"⟩ "new.png" "img.png"
      (by decide) (by decide) rfl rfl).1,
   (C10_update_not_atomic (fun _ => false)
      ⟨[⟨1, "A", "B", "M", 1999, 10, "", some "img.png"⟩], 2⟩
      "1" ⟨none, none, none, .str "abc", .undefined, none⟩ (some "new.png")
      ⟨1, "A", "B", "M", 1999, 10, "", some "img.png"⟩ "new.png" "img.png"
      (by decide) (by decide) rfl rfl).2 (Or.inl (by decide))⟩

end CarsApi
